import Mathlib

/-!
Verification of the Sora-2 sample scripts, centred on the status poller in
`sora2-video-creation-status.py` (`check_video_status`), plus the filesystem
ordering of `sora2-download-generated-video.py` (`download_video`) and the
base-URL constructions of the individual scripts.

The poller is embedded shallowly: the remote lookup `client.videos.retrieve`
becomes an oracle `retrieve : Nat → Except ε Video` giving the outcome of the
k-th lookup (an exception or a job record), the unbounded `while` loop becomes
a fuel-indexed recursion whose `outOfFuel` result marks a run that has not
terminated within the given fuel, and the observable effects (each lookup,
each 20-second sleep) are recorded in an event trace.
-/

namespace Sora2

/-- A generation-job record, as observed by the scripts: `id`, `status`,
`created_at` and the creation-time parameters. Only `status` drives the
poller; the remaining fields keep records distinguishable. -/
structure Video where
  id : String
  status : String
  created_at : Nat
  model : String
  size : String
  seconds : Nat
  prompt : String
deriving DecidableEq, Repr

/-- The terminal-status test `video.status not in ["completed", "failed",
"cancelled"]` (negated): the loop guard of `check_video_status`, line 62 of
the status script. -/
def isTerminal (s : String) : Bool :=
  s == "completed" || s == "failed" || s == "cancelled"

/-- An observable effect of the poller: a status lookup
(`client.videos.retrieve`) or a timed suspension (`time.sleep`, seconds). -/
inductive Event where
  | lookup : Event
  | wait : Nat → Event
deriving DecidableEq, Repr

/-- The outcome of a poller run: clean return of a record, a propagated
lookup exception, a `sys.exit(1)` on missing configuration, or exhaustion of
the fuel bound (the run has not terminated yet). -/
inductive PollResult (ε : Type) where
  | returned : Video → PollResult ε
  | raised : ε → PollResult ε
  | configExit : Nat → PollResult ε
  | outOfFuel : PollResult ε
deriving DecidableEq, Repr

/-- Does the k-th lookup succeed with a non-terminal record? (Exactly the
condition under which the loop body runs again.) -/
def okNonTerminal {ε : Type} : Except ε Video → Bool
  | Except.ok v => !isTerminal v.status
  | Except.error _ => false

/-- The polling loop of `check_video_status`, lines 57–67: an initial
`retrieve`, then while the status is non-terminal, sleep 20 seconds and
`retrieve` again. `i` is the index of the next lookup, `fuel` bounds the
number of further loop iterations; running out of fuel yields `outOfFuel`
before any further effect. Returns the event trace and the outcome. -/
def pollFrom {ε : Type} (retrieve : Nat → Except ε Video) (i fuel : Nat) :
    List Event × PollResult ε :=
  match retrieve i with
  | Except.error e => ([Event.lookup], PollResult.raised e)
  | Except.ok v =>
    if isTerminal v.status then
      ([Event.lookup], PollResult.returned v)
    else
      match fuel with
      | 0 => ([Event.lookup], PollResult.outOfFuel)
      | Nat.succ fuel' =>
        let rest := pollFrom retrieve (i + 1) fuel'
        (Event.lookup :: Event.wait 20 :: rest.1, rest.2)

/-- Python truthiness of an optional environment variable: `not x` is true
when the variable is unset or the empty string. -/
def truthy : Option String → Bool
  | none => false
  | some s => !s.isEmpty

/-- Model of `check_video_status`, lines 42–77: read `AZURE_API_KEY` and
`AZURE_RESOURCE_NAME`; if either is missing or empty, print an error and
`sys.exit(1)` (no lookup, no wait); otherwise run the polling loop. -/
def check_video_status {ε : Type} (api_key resource_name : Option String)
    (retrieve : Nat → Except ε Video) (fuel : Nat) :
    List Event × PollResult ε :=
  if truthy api_key && truthy resource_name then
    pollFrom retrieve 0 fuel
  else
    ([], PollResult.configExit 1)

/-- The final report of `check_video_status`, lines 70–75: a success line
exactly when the terminal status is `completed`. -/
def finalReport (v : Video) : String :=
  if v.status == "completed" then
    "Video successfully completed!"
  else
    "Video creation ended with status: " ++ v.status

/-- The event trace of a run with `n` non-terminal lookups before the final
one: `n + 1` lookups and `n` waits of 20 seconds in strict alternation
lookup, wait, lookup, …, lookup. -/
def altEvents : Nat → List Event
  | 0 => [Event.lookup]
  | Nat.succ n => Event.lookup :: Event.wait 20 :: altEvents n

/-! Model of `sora2-download-generated-video.py` (`download_video`). -/

/-- Abstract local filesystem: the set of existing directories and the files
with their byte contents. -/
structure FS where
  dirs : List String
  files : List (String × List Nat)
deriving DecidableEq, Repr

/-- The outcome of `download_video`: the file saved, a `ValueError` on
missing configuration, or a propagated exception from the remote content
retrieval. -/
inductive DownloadResult (ε : Type) where
  | saved : DownloadResult ε
  | valueError : String → DownloadResult ε
  | raised : ε → DownloadResult ε
deriving DecidableEq, Repr

/-- The prefix of the path up to and including the last slash,
`p[:p.rfind(sep) + 1]` in `os.path.dirname`. -/
def headToLastSlash : List Char → List Char
  | [] => []
  | c :: cs =>
    let rest := headToLastSlash cs
    if rest.isEmpty then (if c = '/' then ['/'] else []) else c :: rest

/-- Model of `os.path.dirname` (posix): the head up to the last slash, with
trailing slashes stripped unless the head consists only of slashes. -/
def dirname (p : String) : String :=
  let head := headToLastSlash p.toList
  if head.isEmpty || head.all (fun c => c == '/') then
    String.mk head
  else
    String.mk ((head.reverse.dropWhile (fun c => c == '/')).reverse)

/-- Model of `content.write_to_file`: (over)write the file at `path`. -/
def writeToFile (fs : FS) (path : String) (content : List Nat) : FS :=
  { fs with files := (path, content) :: fs.files.filter (fun pc => pc.1 != path) }

/-- Model of `os.makedirs`: record the directory as existing. -/
def makedirs (fs : FS) (dir : String) : FS :=
  { fs with dirs := dir :: fs.dirs }

/-- Model of `download_video`, lines 76–127: validate configuration (raising
`ValueError` when `AZURE_API_KEY` or `AZURE_RESOURCE_NAME` is missing or
empty), retrieve the remote content (`client.videos.download_content`, which
may raise), and only then touch the filesystem: create the output directory
when the path has one that does not exist, then write the file. The oracle
`download_content` is the outcome of the remote retrieval. -/
def download_video {ε : Type} (api_key resource_name : Option String)
    (download_content : Except ε (List Nat))
    (output_file_path : String) (fs : FS) : FS × DownloadResult ε :=
  if !(truthy api_key && truthy resource_name) then
    (fs, DownloadResult.valueError
      "Missing required environment variables. Please ensure AZURE_API_KEY and AZURE_RESOURCE_NAME are set in your .env file.")
  else
    match download_content with
    | Except.error e => (fs, DownloadResult.raised e)
    | Except.ok content =>
      let output_dir := dirname output_file_path
      let fs1 :=
        if !output_dir.isEmpty && !fs.dirs.contains output_dir then
          makedirs fs output_dir
        else fs
      (writeToFile fs1 output_file_path content, DownloadResult.saved)

/-! Base-URL constructions of the individual scripts. -/

/-- Base URL of the status poller, `sora2-video-creation-status.py` line 49. -/
def statusBaseUrl (resource_name : String) : String :=
  "https://" ++ resource_name ++ "/openai/v1/"

/-- Base URL of the text-to-video creator, `sora2-text-to-video-sample.py`
line 39. -/
def createTextBaseUrl (resource_name : String) : String :=
  "https://" ++ resource_name ++ "/openai/v1/"

/-- Base URL of the image-to-video creator, `sora2-image-to-video-sample.py`
line 47. -/
def createImageBaseUrl (resource_name : String) : String :=
  "https://" ++ resource_name ++ "/openai/v1/"

/-- Base URL of the download script, `sora2-download-generated-video.py`
line 87. -/
def downloadBaseUrl (resource_name : String) : String :=
  "https://" ++ resource_name ++ "/openai/v1/"

/-- Base URL of the delete script, `sora2-delete-generated-video.py`
line 46. -/
def deleteBaseUrl (resource_name : String) : String :=
  "https://" ++ resource_name ++ "/openai/v1/"

/-- Base URL of the list-videos script, `sora2-get-generated-videos.py`
line 37: it alone appends `.openai.azure.com` to the resource name. -/
def listVideosBaseUrl (resource_name : String) : String :=
  "https://" ++ resource_name ++ ".openai.azure.com/openai/v1/"

/-! Unfolding lemmas for `pollFrom`, one per branch of the loop body. -/

lemma okNonTerminal_iff {ε : Type} {r : Except ε Video} :
    okNonTerminal r = true ↔ ∃ v, r = Except.ok v ∧ isTerminal v.status = false := by
  cases r with
  | error e => simp [okNonTerminal]
  | ok v => simp [okNonTerminal]

lemma pollFrom_error {ε : Type} {retrieve : Nat → Except ε Video} {i : Nat} {e : ε}
    (h : retrieve i = Except.error e) (fuel : Nat) :
    pollFrom retrieve i fuel = ([Event.lookup], PollResult.raised e) := by
  cases fuel <;> simp [pollFrom, h]

lemma pollFrom_terminal {ε : Type} {retrieve : Nat → Except ε Video} {i : Nat} {v : Video}
    (h : retrieve i = Except.ok v) (ht : isTerminal v.status = true) (fuel : Nat) :
    pollFrom retrieve i fuel = ([Event.lookup], PollResult.returned v) := by
  cases fuel <;> simp [pollFrom, h, ht]

lemma pollFrom_zero_nonterminal {ε : Type} {retrieve : Nat → Except ε Video} {i : Nat}
    {v : Video} (h : retrieve i = Except.ok v) (ht : isTerminal v.status = false) :
    pollFrom retrieve i 0 = ([Event.lookup], PollResult.outOfFuel) := by
  simp [pollFrom, h, ht]

lemma pollFrom_step {ε : Type} {retrieve : Nat → Except ε Video} {i : Nat} {v : Video}
    (h : retrieve i = Except.ok v) (ht : isTerminal v.status = false) (fuel : Nat) :
    pollFrom retrieve i (fuel + 1) =
      (Event.lookup :: Event.wait 20 :: (pollFrom retrieve (i + 1) fuel).1,
        (pollFrom retrieve (i + 1) fuel).2) := by
  simp [pollFrom, h, ht]

/-! The main run lemmas: a run whose first terminal (resp. erroring) lookup
is the `N`-th one, counted from the start index, produces exactly the
alternating trace `altEvents N`. -/

lemma pollFrom_run {ε : Type} (retrieve : Nat → Except ε Video) (v : Video) (N : Nat) :
    ∀ (i fuel : Nat),
      (∀ k, k < N → okNonTerminal (retrieve (i + k)) = true) →
      retrieve (i + N) = Except.ok v → isTerminal v.status = true → N ≤ fuel →
      pollFrom retrieve i fuel = (altEvents N, PollResult.returned v) := by
  induction N with
  | zero =>
    intro i fuel _ hv ht _
    rw [Nat.add_zero] at hv
    rw [pollFrom_terminal hv ht fuel, altEvents]
  | succ N ih =>
    intro i fuel hpre hv ht hfuel
    obtain ⟨fuel', rfl⟩ : ∃ f, fuel = f + 1 := ⟨fuel - 1, by omega⟩
    have h0 : okNonTerminal (retrieve i) = true := by
      have h := hpre 0 (Nat.succ_pos N)
      rwa [Nat.add_zero] at h
    obtain ⟨w, hw, hwt⟩ := okNonTerminal_iff.mp h0
    rw [pollFrom_step hw hwt fuel']
    have hrec := ih (i + 1) fuel'
      (fun k hk => by
        have h := hpre (k + 1) (by omega)
        rwa [show i + (k + 1) = i + 1 + k by omega] at h)
      (by rwa [show i + 1 + N = i + (N + 1) by omega])
      ht (by omega)
    rw [hrec, altEvents]

lemma pollFrom_raise {ε : Type} (retrieve : Nat → Except ε Video) (e : ε) (N : Nat) :
    ∀ (i fuel : Nat),
      (∀ k, k < N → okNonTerminal (retrieve (i + k)) = true) →
      retrieve (i + N) = Except.error e → N ≤ fuel →
      pollFrom retrieve i fuel = (altEvents N, PollResult.raised e) := by
  induction N with
  | zero =>
    intro i fuel _ he _
    rw [Nat.add_zero] at he
    rw [pollFrom_error he fuel, altEvents]
  | succ N ih =>
    intro i fuel hpre he hfuel
    obtain ⟨fuel', rfl⟩ : ∃ f, fuel = f + 1 := ⟨fuel - 1, by omega⟩
    have h0 : okNonTerminal (retrieve i) = true := by
      have h := hpre 0 (Nat.succ_pos N)
      rwa [Nat.add_zero] at h
    obtain ⟨w, hw, hwt⟩ := okNonTerminal_iff.mp h0
    rw [pollFrom_step hw hwt fuel']
    have hrec := ih (i + 1) fuel'
      (fun k hk => by
        have h := hpre (k + 1) (by omega)
        rwa [show i + (k + 1) = i + 1 + k by omega] at h)
      (by rwa [show i + 1 + N = i + (N + 1) by omega])
      (by omega)
    rw [hrec, altEvents]

/-- A record returned by the loop always has a terminal status. -/
lemma pollFrom_returned_terminal {ε : Type} {retrieve : Nat → Except ε Video} {v : Video} :
    ∀ {fuel i : Nat}, (pollFrom retrieve i fuel).2 = PollResult.returned v →
      isTerminal v.status = true := by
  intro fuel
  induction fuel with
  | zero =>
    intro i h
    cases hr : retrieve i with
    | error e => rw [pollFrom_error hr 0] at h; simp at h
    | ok w =>
      cases ht : isTerminal w.status with
      | true =>
        rw [pollFrom_terminal hr ht 0] at h
        simp at h
        rwa [← h]
      | false => rw [pollFrom_zero_nonterminal hr ht] at h; simp at h
  | succ fuel ih =>
    intro i h
    cases hr : retrieve i with
    | error e => rw [pollFrom_error hr (fuel + 1)] at h; simp at h
    | ok w =>
      cases ht : isTerminal w.status with
      | true =>
        rw [pollFrom_terminal hr ht (fuel + 1)] at h
        simp at h
        rwa [← h]
      | false =>
        rw [pollFrom_step hr ht fuel] at h
        exact ih h

/-- Every wait recorded by the loop is the fixed 20-second sleep. -/
lemma pollFrom_wait_eq {ε : Type} (retrieve : Nat → Except ε Video) :
    ∀ (fuel i d : Nat), Event.wait d ∈ (pollFrom retrieve i fuel).1 → d = 20 := by
  intro fuel
  induction fuel with
  | zero =>
    intro i d h
    cases hr : retrieve i with
    | error e => rw [pollFrom_error hr 0] at h; simp at h
    | ok w =>
      cases ht : isTerminal w.status with
      | true => rw [pollFrom_terminal hr ht 0] at h; simp at h
      | false => rw [pollFrom_zero_nonterminal hr ht] at h; simp at h
  | succ fuel ih =>
    intro i d h
    cases hr : retrieve i with
    | error e => rw [pollFrom_error hr (fuel + 1)] at h; simp at h
    | ok w =>
      cases ht : isTerminal w.status with
      | true => rw [pollFrom_terminal hr ht (fuel + 1)] at h; simp at h
      | false =>
        rw [pollFrom_step hr ht fuel] at h
        simp only [List.mem_cons] at h
        rcases h with h | h | h
        · exact absurd h (by simp)
        · exact (Event.wait.injEq d 20).mp h
        · exact ih (i + 1) d h

/-- If every lookup succeeds with a non-terminal status, the loop exhausts
any amount of fuel: the run never terminates. -/
lemma pollFrom_stuck {ε : Type} {retrieve : Nat → Except ε Video}
    (hall : ∀ k, okNonTerminal (retrieve k) = true) :
    ∀ (fuel i : Nat), (pollFrom retrieve i fuel).2 = PollResult.outOfFuel := by
  intro fuel
  induction fuel with
  | zero =>
    intro i
    obtain ⟨w, hw, hwt⟩ := okNonTerminal_iff.mp (hall i)
    rw [pollFrom_zero_nonterminal hw hwt]
  | succ fuel ih =>
    intro i
    obtain ⟨w, hw, hwt⟩ := okNonTerminal_iff.mp (hall i)
    rw [pollFrom_step hw hwt fuel]
    exact ih (i + 1)

/-- Conversely, a run that exhausts its fuel saw only successful non-terminal
lookups up to that fuel bound. -/
lemma pollFrom_outOfFuel_sound {ε : Type} {retrieve : Nat → Except ε Video} :
    ∀ {fuel i : Nat}, (pollFrom retrieve i fuel).2 = PollResult.outOfFuel →
      ∀ k, k ≤ fuel → okNonTerminal (retrieve (i + k)) = true := by
  intro fuel
  induction fuel with
  | zero =>
    intro i h k hk
    interval_cases k
    cases hr : retrieve i with
    | error e => rw [pollFrom_error hr 0] at h; simp at h
    | ok w =>
      cases ht : isTerminal w.status with
      | true => rw [pollFrom_terminal hr ht 0] at h; simp at h
      | false => simp [okNonTerminal, hr, ht]
  | succ fuel ih =>
    intro i h k hk
    cases hr : retrieve i with
    | error e => rw [pollFrom_error hr (fuel + 1)] at h; simp at h
    | ok w =>
      cases ht : isTerminal w.status with
      | true => rw [pollFrom_terminal hr ht (fuel + 1)] at h; simp at h
      | false =>
        rw [pollFrom_step hr ht fuel] at h
        cases k with
        | zero => simp [okNonTerminal, hr, ht]
        | succ k =>
          have := ih h k (by omega)
          rwa [show i + 1 + k = i + (k + 1) by omega] at this

/-! Counting facts about the alternating trace. -/

lemma altEvents_count_lookup (n : Nat) : (altEvents n).count Event.lookup = n + 1 := by
  induction n with
  | zero => rfl
  | succ n ih => simp [altEvents, List.count_cons, ih]

lemma altEvents_count_wait (n : Nat) : (altEvents n).count (Event.wait 20) = n := by
  induction n with
  | zero => rfl
  | succ n ih => simp [altEvents, List.count_cons, ih]

lemma altEvents_wait_mem {n d : Nat} (h : Event.wait d ∈ altEvents n) : d = 20 := by
  induction n with
  | zero => simp [altEvents] at h
  | succ n ih =>
    simp only [altEvents, List.mem_cons] at h
    rcases h with h | h | h
    · exact absurd h (by simp)
    · exact (Event.wait.injEq d 20).mp h
    · exact ih h

/-- The alternating trace always ends with a lookup: nothing follows the
final (terminal or erroring) lookup. -/
lemma altEvents_ends_lookup (n : Nat) : ∃ l, altEvents n = l ++ [Event.lookup] := by
  induction n with
  | zero => exact ⟨[], rfl⟩
  | succ n ih =>
    obtain ⟨l, hl⟩ := ih
    exact ⟨Event.lookup :: Event.wait 20 :: l, by simp [altEvents, hl]⟩

/-- With valid configuration, `check_video_status` is the polling loop. -/
lemma check_video_status_config_ok {ε : Type} {api_key resource_name : Option String}
    (hcfg : (truthy api_key && truthy resource_name) = true)
    (retrieve : Nat → Except ε Video) (fuel : Nat) :
    check_video_status api_key resource_name retrieve fuel = pollFrom retrieve 0 fuel := by
  simp [check_video_status, hcfg]

/-- The success line is printed exactly for the status `completed`. -/
lemma finalReport_success_iff (w : Video) :
    finalReport w = "Video successfully completed!" ↔ w.status = "completed" := by
  by_cases h : w.status = "completed"
  · simp [finalReport, h]
  · have hb : (w.status == "completed") = false := by simp [h]
    simp only [finalReport, hb, Bool.false_eq_true, if_false]
    constructor
    · intro hEq
      exfalso
      have hlen := congrArg String.length hEq
      rw [String.length_append] at hlen
      have h1 : ("Video creation ended with status: " : String).length = 34 := rfl
      have h2 : ("Video successfully completed!" : String).length = 29 := rfl
      rw [h1, h2] at hlen
      omega
    · intro hc
      exact absurd hc h

/-! Concrete oracles used to evaluate the theorems below on closed inputs. -/

/-- A concrete job record. -/
def sampleVideo (s : String) : Video :=
  { id := "video_6901017960dc8190a6f7a19cd8f48976", status := s,
    created_at := 1760000000, model := "sora-2", size := "1280x720",
    seconds := 4, prompt := "a red panda pouring latte art" }

/-- An oracle whose first two lookups return `queued` and whose third
returns `completed`. -/
def sampleRetrieve : Nat → Except String Video :=
  fun k => if k < 2 then Except.ok (sampleVideo "queued")
           else Except.ok (sampleVideo "completed")

/-- An oracle whose lookups never leave `queued`. -/
def stuckRetrieve : Nat → Except String Video :=
  fun _ => Except.ok (sampleVideo "queued")

/-- An oracle that raises on every lookup after the first. -/
def failingRetrieve : Nat → Except String Video :=
  fun k => if k = 0 then Except.ok (sampleVideo "queued")
           else Except.error "APIConnectionError"

/-- An oracle for a job that has already failed. -/
def failedRetrieve : Nat → Except String Video :=
  fun _ => Except.ok (sampleVideo "failed")

/-- An oracle for a job that has already completed. -/
def doneRetrieve : Nat → Except String Video :=
  fun _ => Except.ok (sampleVideo "completed")

/-! The claims. -/

/-- C1: when the first `N` lookups are non-terminal and lookup `N + 1` is
terminal, the poller performs exactly `N + 1` lookups and `N` fixed-interval
waits, in strict alternation lookup, wait, …, lookup; for `N = 0` this is one
lookup and zero waits. -/
theorem claim1_strict_alternation {ε : Type} (api_key resource_name : Option String)
    (retrieve : Nat → Except ε Video) (N fuel : Nat) (v : Video)
    (hcfg : (truthy api_key && truthy resource_name) = true)
    (hpre : ∀ k, k < N → okNonTerminal (retrieve k) = true)
    (hterm : retrieve N = Except.ok v) (hts : isTerminal v.status = true)
    (hfuel : N ≤ fuel) :
    (check_video_status api_key resource_name retrieve fuel).1 = altEvents N ∧
      (altEvents N).count Event.lookup = N + 1 ∧
      (altEvents N).count (Event.wait 20) = N ∧
      ∀ d, Event.wait d ∈ altEvents N → d = 20 := by
  have hrun := pollFrom_run retrieve v N 0 fuel
    (fun k hk => by simpa using hpre k hk) (by simpa using hterm) hts hfuel
  refine ⟨?_, altEvents_count_lookup N, altEvents_count_wait N,
    fun d hd => altEvents_wait_mem hd⟩
  rw [check_video_status_config_ok hcfg, hrun]

/-- C2: when a lookup first observes a terminal status, the loop stops and
returns exactly the record that lookup produced, with no lookup after the
terminal observation. -/
theorem claim2_returns_first_terminal {ε : Type} (api_key resource_name : Option String)
    (retrieve : Nat → Except ε Video) (N fuel : Nat) (v : Video)
    (hcfg : (truthy api_key && truthy resource_name) = true)
    (hpre : ∀ k, k < N → okNonTerminal (retrieve k) = true)
    (hterm : retrieve N = Except.ok v) (hts : isTerminal v.status = true)
    (hfuel : N ≤ fuel) :
    (check_video_status api_key resource_name retrieve fuel).2 = PollResult.returned v ∧
      (check_video_status api_key resource_name retrieve fuel).1.count Event.lookup =
        N + 1 := by
  have hrun := pollFrom_run retrieve v N 0 fuel
    (fun k hk => by simpa using hpre k hk) (by simpa using hterm) hts hfuel
  rw [check_video_status_config_ok hcfg, hrun]
  exact ⟨rfl, altEvents_count_lookup N⟩

/-- C3: a run ending in `failed` or `cancelled` does not raise: the terminal
record is returned normally, it is not reported as success, and only
`completed` is reported as success. -/
theorem claim3_unsuccessful_returned {ε : Type} (api_key resource_name : Option String)
    (retrieve : Nat → Except ε Video) (N fuel : Nat) (v : Video)
    (hcfg : (truthy api_key && truthy resource_name) = true)
    (hpre : ∀ k, k < N → okNonTerminal (retrieve k) = true)
    (hterm : retrieve N = Except.ok v)
    (hts : v.status = "failed" ∨ v.status = "cancelled")
    (hfuel : N ≤ fuel) :
    (check_video_status api_key resource_name retrieve fuel).2 = PollResult.returned v ∧
      finalReport v ≠ "Video successfully completed!" ∧
      ∀ w : Video, (finalReport w = "Video successfully completed!" ↔
        w.status = "completed") := by
  have hterm' : isTerminal v.status = true := by
    rcases hts with h | h <;> simp [isTerminal, h]
  have hrun := pollFrom_run retrieve v N 0 fuel
    (fun k hk => by simpa using hpre k hk) (by simpa using hterm) hterm' hfuel
  rw [check_video_status_config_ok hcfg, hrun]
  refine ⟨rfl, ?_, finalReport_success_iff⟩
  have hrep : finalReport v = "Video creation ended with status: " ++ v.status := by
    rcases hts with h | h <;> simp [finalReport, h]
  rcases hts with h | h <;> rw [hrep, h] <;> decide

/-- C4: a lookup that raises aborts the poller at once: the same error
propagates, the trace ends with the failing lookup (the `N + 1`-st), and no
further lookup or wait happens after it. -/
theorem claim4_lookup_error_propagates {ε : Type} (api_key resource_name : Option String)
    (retrieve : Nat → Except ε Video) (N fuel : Nat) (e : ε)
    (hcfg : (truthy api_key && truthy resource_name) = true)
    (hpre : ∀ k, k < N → okNonTerminal (retrieve k) = true)
    (herr : retrieve N = Except.error e)
    (hfuel : N ≤ fuel) :
    check_video_status api_key resource_name retrieve fuel =
        (altEvents N, PollResult.raised e) ∧
      (altEvents N).count Event.lookup = N + 1 ∧
      (altEvents N).count (Event.wait 20) = N ∧
      ∃ l, altEvents N = l ++ [Event.lookup] := by
  have hrun := pollFrom_raise retrieve e N 0 fuel
    (fun k hk => by simpa using hpre k hk) (by simpa using herr) hfuel
  rw [check_video_status_config_ok hcfg, hrun]
  exact ⟨rfl, altEvents_count_lookup N, altEvents_count_wait N, altEvents_ends_lookup N⟩

/-- C5: every wait between two consecutive lookups lasts exactly 20 seconds,
whatever lookups have already occurred: no backoff, no variation. -/
theorem claim5_fixed_interval {ε : Type} (api_key resource_name : Option String)
    (retrieve : Nat → Except ε Video) (fuel d : Nat)
    (h : Event.wait d ∈ (check_video_status api_key resource_name retrieve fuel).1) :
    d = 20 := by
  cases hb : (truthy api_key && truthy resource_name) with
  | true =>
    rw [check_video_status_config_ok hb] at h
    exact pollFrom_wait_eq retrieve fuel 0 d h
  | false => simp [check_video_status, hb] at h

/-- C6: no timeout and no retry bound: the poller runs forever exactly when
no lookup ever returns a terminal status or raises; it terminates exactly
when some lookup is terminal or raises. -/
theorem claim6_no_timeout {ε : Type} (api_key resource_name : Option String)
    (retrieve : Nat → Except ε Video)
    (hcfg : (truthy api_key && truthy resource_name) = true) :
    (∀ fuel, (check_video_status api_key resource_name retrieve fuel).2 =
        PollResult.outOfFuel) ↔
      (∀ k, okNonTerminal (retrieve k) = true) := by
  constructor
  · intro hall k
    have h := hall k
    rw [check_video_status_config_ok hcfg] at h
    have hk := pollFrom_outOfFuel_sound h k (le_refl k)
    simpa using hk
  · intro hall fuel
    rw [check_video_status_config_ok hcfg]
    exact pollFrom_stuck hall fuel 0

/-- C7: when the API key or the resource name is missing or empty, the
status script exits immediately with the non-zero code 1, performing no
lookup and no wait. -/
theorem claim7_config_error_exits {ε : Type} (api_key resource_name : Option String)
    (retrieve : Nat → Except ε Video) (fuel : Nat)
    (h : api_key = none ∨ api_key = some "" ∨
         resource_name = none ∨ resource_name = some "") :
    check_video_status api_key resource_name retrieve fuel =
        ([], PollResult.configExit 1) ∧
      (1 : Nat) ≠ 0 := by
  have hc : (truthy api_key && truthy resource_name) = false := by
    rcases h with h | h | h | h <;> subst h
    · simp [truthy]
    · rw [show truthy (some "") = false from rfl]
      simp
    · simp [truthy]
    · rw [show truthy (some "") = false from rfl]
      simp
  refine ⟨?_, by decide⟩
  simp [check_video_status, hc]

/-- C8: for a job already terminal, assuming the service returns the same
terminal record again, a second call performs exactly one additional lookup,
zero waits, and returns the same record. -/
theorem claim8_idempotent_second_call {ε : Type} (api_key resource_name : Option String)
    (retrieve₁ retrieve₂ : Nat → Except ε Video) (fuel₁ fuel₂ : Nat) (v : Video)
    (h1 : (check_video_status api_key resource_name retrieve₁ fuel₁).2 =
      PollResult.returned v)
    (h2 : retrieve₂ 0 = Except.ok v) :
    check_video_status api_key resource_name retrieve₂ fuel₂ =
      ([Event.lookup], PollResult.returned v) := by
  have hcfg : (truthy api_key && truthy resource_name) = true := by
    cases hb : (truthy api_key && truthy resource_name) with
    | true => rfl
    | false => simp [check_video_status, hb] at h1
  rw [check_video_status_config_ok hcfg] at h1
  have ht := pollFrom_returned_terminal h1
  rw [check_video_status_config_ok hcfg, pollFrom_terminal h2 ht fuel₂]

/-- C9: in `download_video` the remote content retrieval happens before any
filesystem effect, so a failed retrieval leaves the filesystem unchanged: no
directory is created and no file is written. -/
theorem claim9_download_failure_leaves_fs {ε : Type} (api_key resource_name : Option String)
    (e : ε) (output_file_path : String) (fs : FS)
    (hcfg : (truthy api_key && truthy resource_name) = true) :
    download_video api_key resource_name (Except.error e) output_file_path fs =
      (fs, DownloadResult.raised e) := by
  simp [download_video, hcfg]

/-- C10: the list-videos script builds its base URL with an extra
`.openai.azure.com` suffix on the resource name, while the status, create
(text and image), download and delete scripts all build the same base URL
without it; the two constructions differ for every resource name. -/
theorem claim10_list_script_divergent_base_url (r : String) :
    statusBaseUrl r = createTextBaseUrl r ∧
      statusBaseUrl r = createImageBaseUrl r ∧
      statusBaseUrl r = downloadBaseUrl r ∧
      statusBaseUrl r = deleteBaseUrl r ∧
      listVideosBaseUrl r ≠ statusBaseUrl r := by
  refine ⟨rfl, rfl, rfl, rfl, ?_⟩
  intro h
  have hlen := congrArg String.length h
  simp only [listVideosBaseUrl, statusBaseUrl, String.length_append] at hlen
  have h1 : (".openai.azure.com/openai/v1/" : String).length = 28 := rfl
  have h2 : ("/openai/v1/" : String).length = 11 := rfl
  rw [h1, h2] at hlen
  omega

/-! Concrete evaluations of the theorems above on closed inputs. -/

/-- A run with two `queued` lookups then a `completed` one has the
alternating trace of length five. -/
theorem claim1_strict_alternation_witness :
    (check_video_status (some "key") (some "resource") sampleRetrieve 2).1 =
      altEvents 2 :=
  (claim1_strict_alternation (some "key") (some "resource") sampleRetrieve 2 2
    (sampleVideo "completed") (by decide) (by decide) rfl (by decide) (by decide)).1

/-- The same run returns the `completed` record of the third lookup. -/
theorem claim2_returns_first_terminal_witness :
    (check_video_status (some "key") (some "resource") sampleRetrieve 5).2 =
      PollResult.returned (sampleVideo "completed") :=
  (claim2_returns_first_terminal (some "key") (some "resource") sampleRetrieve 2 5
    (sampleVideo "completed") (by decide) (by decide) rfl (by decide) (by decide)).1

/-- A job already `failed` is returned normally, not raised. -/
theorem claim3_unsuccessful_returned_witness :
    (check_video_status (some "key") (some "resource") failedRetrieve 0).2 =
      PollResult.returned (sampleVideo "failed") :=
  (claim3_unsuccessful_returned (some "key") (some "resource") failedRetrieve 0 0
    (sampleVideo "failed") (by decide) (by decide) rfl (Or.inl rfl) (by decide)).1

/-- A second lookup that raises aborts the run with the same error after one
wait. -/
theorem claim4_lookup_error_propagates_witness :
    check_video_status (some "key") (some "resource") failingRetrieve 3 =
      (altEvents 1, PollResult.raised "APIConnectionError") :=
  (claim4_lookup_error_propagates (some "key") (some "resource") failingRetrieve 1 3
    "APIConnectionError" (by decide) (by decide) rfl (by decide)).1

/-- A wait occurring in a concrete run lasts 20 seconds. -/
theorem claim5_fixed_interval_witness :
    Event.wait 20 ∈
        (check_video_status (some "key") (some "resource") sampleRetrieve 2).1 ∧
      20 = 20 :=
  ⟨by decide,
    claim5_fixed_interval (some "key") (some "resource") sampleRetrieve 2 20 (by decide)⟩

/-- A permanently `queued` job exhausts any fuel bound. -/
theorem claim6_no_timeout_witness :
    (check_video_status (some "key") (some "resource") stuckRetrieve 5).2 =
      PollResult.outOfFuel :=
  ((claim6_no_timeout (some "key") (some "resource") stuckRetrieve (by decide)).mpr
    (fun _ => rfl)) 5

/-- A missing API key exits with code 1 and an empty trace. -/
theorem claim7_config_error_exits_witness :
    check_video_status (none : Option String) (some "resource") stuckRetrieve 0 =
        ([], PollResult.configExit 1) ∧
      (1 : Nat) ≠ 0 :=
  claim7_config_error_exits none (some "resource") stuckRetrieve 0 (Or.inl rfl)

/-- A second call on an already-completed job does one lookup and returns
the same record. -/
theorem claim8_idempotent_second_call_witness :
    check_video_status (some "key") (some "resource") doneRetrieve 0 =
      ([Event.lookup], PollResult.returned (sampleVideo "completed")) :=
  claim8_idempotent_second_call (some "key") (some "resource") doneRetrieve doneRetrieve
    7 0 (sampleVideo "completed") (by decide) rfl

/-- A failed content retrieval leaves an empty filesystem empty. -/
theorem claim9_download_failure_leaves_fs_witness :
    download_video (some "key") (some "resource")
        (Except.error "APIConnectionError" : Except String (List Nat))
        "videos/red_panda_latte.mp4" { dirs := [], files := [] } =
      ({ dirs := [], files := [] }, DownloadResult.raised "APIConnectionError") :=
  claim9_download_failure_leaves_fs (some "key") (some "resource") "APIConnectionError"
    "videos/red_panda_latte.mp4" { dirs := [], files := [] } (by decide)

end Sora2
